import Mathlib

/-!
# Verification of the counterfeit-detection engine

Shallow embedding of `CounterfeitDetectionService` (file
`app/services/counterfeit_detection_service.py`) and of the blockchain
post-verification adjustment in `app/api/v1/endpoints/verifications.py`.

Conventions of the embedding:
* SQL rows become Lean structures; nullable columns become `Option`.
* Python truthiness of optional strings / integers is `truthyStr` / `truthyInt`
  (`None`, `""` and `0` are falsy).
* `datetime` values are integers counting days, so `timedelta(days=30)` is `30`
  and `timedelta(days=365*10)` is `3650`; `datetime.utcnow()` is `Env.now`.
* Float scores become rationals.  Every reachable score is a multiple of
  `1/20`, on which Python's `round(x, 2)` agrees with `round2` below.
* The database session and the IPFS collaborator are an explicit environment
  `Env`; an unexpected exception raised anywhere inside the `try` block of
  `detect_counterfeit` is modelled by `Env.exc` (the outer handler discards
  all partial state, so only the message matters).
-/

namespace CounterfeitDetection

/-- Python truthiness of an optional string column (`None` and `""` are falsy). -/
def truthyStr : Option String → Bool
  | none => false
  | some s => !(s == "")

/-- Python truthiness of an optional integer column (`None` and `0` are falsy). -/
def truthyInt : Option Int → Bool
  | none => false
  | some n => !(n == 0)

/-- Row of the `products` table (`app/models/product.py`). -/
structure Product where
  id : Nat
  blockchain_id : Option Int
  product_name : String
  product_description : String
  manufacturing_date : Option Int
  batch_number : String
  qr_code_hash : Option String
  ipfs_hash : Option String
  swarm_hash : Option String
  manufacturer_id : Nat
  is_active : Bool
deriving DecidableEq

/-- Row of the `users` table (`app/models/user.py`), the fields the engine reads. -/
structure User where
  id : Nat
  is_active : Bool
  is_verified : Bool
deriving DecidableEq

/-- Row of the `verifications` table (`app/models/verification.py`),
the fields the pattern analyzer reads. -/
structure Verification where
  id : Nat
  product_id : Nat
  is_authentic : Bool
  verification_date : Int
deriving DecidableEq

/-- Outcome of `IPFSService.retrieve_product_data`: the dict with
`success=False` and an optional error, the dict with `success=True` and the
stored `product_data` fields the validator compares, or a raised exception. -/
inductive IpfsFetch where
  | failure (error : Option String)
  | success (product_name : Option String) (batch_number : Option String)
  | raised (msg : String)
deriving DecidableEq

/-- The collaborators of the detection service: the database tables, the
clock, the IPFS gateway, and a possible unexpected exception inside the
`try` block of `detect_counterfeit`. -/
structure Env where
  products : List Product
  users : List User
  verifications : List Verification
  now : Int
  ipfs : String → IpfsFetch
  exc : Option String

/-- Result dict of `_validate_qr_code`. -/
structure QrValidation where
  is_valid : Bool
  reasons : List String
deriving DecidableEq

/-- Result dict of `_validate_ipfs_data`. -/
structure IpfsValidation where
  is_valid : Bool
  reasons : List String
deriving DecidableEq

/-- Result dict of `_validate_blockchain_data`. -/
structure BlockchainValidation where
  is_valid : Bool
  reasons : List String
deriving DecidableEq

/-- Result dict of `_check_duplicates`. -/
structure DuplicateCheck where
  has_duplicates : Bool
  reasons : List String
deriving DecidableEq

/-- Result dict of `_analyze_verification_patterns`. -/
structure PatternAnalysis where
  suspicious_pattern : Bool
  reasons : List String
deriving DecidableEq

/-- Result dict of `_validate_manufacturer`. -/
structure ManufacturerValidation where
  is_valid : Bool
  reasons : List String
deriving DecidableEq

/-- Result dict of `_check_data_consistency`. -/
structure ConsistencyCheck where
  is_consistent : Bool
  reasons : List String
deriving DecidableEq

/-- How Python renders `ipfs_result.get('error')` inside an f-string. -/
def pyShowOpt : Option String → String
  | none => "None"
  | some s => s

/-- Substring search over character lists, by direct recursion on the
haystack (an empty needle is contained everywhere, as in Python). -/
def hasSub (needle : List Char) : List Char → Bool
  | [] => needle.isEmpty
  | c :: t => needle.isPrefixOf (c :: t) || hasSub needle t

/-- `needle in hay` on Python strings. -/
def strContains (hay needle : String) : Bool := hasSub needle.data hay.data

/-- Python's `str.lower`, characterwise. -/
def strLower (s : String) : String := String.mk (s.data.map Char.toLower)

/-- `_validate_qr_code`: format check (length 64), optional comparison with the
hash provided at verification time, and the duplicate-hash query
(`Product.qr_code_hash == hash, Product.id != id` — note: no `is_active`
filter). -/
def _validate_qr_code (env : Env) (product : Product)
    (provided_qr_hash : Option String) : QrValidation :=
  if !truthyStr product.qr_code_hash || (product.qr_code_hash.getD "").length != 64 then
    { is_valid := false
      reasons := ["Invalid QR code hash format - possible counterfeit"] }
  else
    let formatReasons := ["QR code hash format is valid"]
    let matchState : Bool × List String :=
      if truthyStr provided_qr_hash then
        if product.qr_code_hash != provided_qr_hash then
          (false, ["QR code hash mismatch - possible counterfeit"])
        else
          (true, ["QR code hash matches stored value"])
      else (true, [])
    let duplicate_count :=
      (env.products.filter (fun q =>
        q.qr_code_hash == product.qr_code_hash && q.id != product.id)).length
    if duplicate_count > 0 then
      { is_valid := false
        reasons := formatReasons ++ matchState.2 ++
          ["Duplicate QR code detected on " ++ toString duplicate_count ++
            " other products - counterfeit"] }
    else
      { is_valid := matchState.1
        reasons := formatReasons ++ matchState.2 ++
          ["QR code is unique - no duplicates found"] }

/-- `_validate_ipfs_data`: absent hash passes with a limited-verification
reason; otherwise the snapshot is fetched and `product_name` /
`batch_number` compared. -/
def _validate_ipfs_data (env : Env) (product : Product) : IpfsValidation :=
  if !truthyStr product.ipfs_hash then
    { is_valid := true, reasons := ["No IPFS data available - limited verification"] }
  else
    match env.ipfs (product.ipfs_hash.getD "") with
    | .raised msg =>
      { is_valid := false, reasons := ["IPFS validation error: " ++ msg] }
    | .failure err =>
      { is_valid := false
        reasons := ["IPFS data retrieval failed: " ++ pyShowOpt err] }
    | .success pname bnum =>
      if pname != some product.product_name then
        { is_valid := false, reasons := ["IPFS data product name mismatch"] }
      else if bnum != some product.batch_number then
        { is_valid := false, reasons := ["IPFS data batch number mismatch"] }
      else
        { is_valid := true, reasons := ["IPFS data integrity verified"] }

/-- `_validate_blockchain_data`: presence test on `blockchain_id`. -/
def _validate_blockchain_data (product : Product) : BlockchainValidation :=
  if !truthyInt product.blockchain_id then
    { is_valid := false, reasons := ["Product not registered on blockchain"] }
  else
    { is_valid := true, reasons := ["Product registered on blockchain"] }

/-- `_check_duplicates`: other **active** products sharing `batch_number` and
`manufacturer_id`. -/
def _check_duplicates (env : Env) (product : Product) : DuplicateCheck :=
  let duplicate_products :=
    env.products.filter (fun q =>
      q.batch_number == product.batch_number &&
      q.manufacturer_id == product.manufacturer_id &&
      q.id != product.id && q.is_active)
  if duplicate_products.length > 0 then
    { has_duplicates := true
      reasons := ["Found " ++ toString duplicate_products.length ++
        " products with same batch number from same manufacturer"] }
  else
    { has_duplicates := false
      reasons := ["No duplicate products found with same batch number"] }

/-- Rendering of Python `f"{rate:.1%}"` for `rate = c / t`, one decimal of a
percentage.  (Python rounds the underlying float half-to-even; the tie-break
never affects any property proved here, only digits inside a reason string.) -/
def formatPercent1 (c t : Nat) : String :=
  let tenths : Int := round ((c : ℚ) * 1000 / t)
  toString (tenths / 10) ++ "." ++ toString (tenths % 10) ++ "%"

/-- `_analyze_verification_patterns`: verifications of this product in the
trailing 30 days; frequency bucket and counterfeit-rate bucket. -/
def _analyze_verification_patterns (env : Env) (product : Product) : PatternAnalysis :=
  let recent_verifications :=
    env.verifications.filter (fun v =>
      v.product_id == product.id && decide (env.now - 30 ≤ v.verification_date))
  let total_verifications := recent_verifications.length
  let counterfeit_verifications :=
    (recent_verifications.filter (fun v => !v.is_authentic)).length
  let freq : Bool × List String :=
    if total_verifications > 20 then
      (true, ["Excessive verification attempts: " ++ toString total_verifications ++
        " in 30 days"])
    else if total_verifications > 10 then
      (false, ["High verification frequency: " ++ toString total_verifications ++
        " in 30 days"])
    else
      (false, ["Normal verification pattern: " ++ toString total_verifications ++
        " in 30 days"])
  let rate : Bool × List String :=
    if total_verifications > 0 then
      if (counterfeit_verifications : ℚ) / total_verifications > 1/2 then
        (true, ["High counterfeit detection rate: " ++
          formatPercent1 counterfeit_verifications total_verifications])
      else if (counterfeit_verifications : ℚ) / total_verifications > 1/5 then
        (false, ["Moderate counterfeit detection rate: " ++
          formatPercent1 counterfeit_verifications total_verifications])
      else
        (false, ["Low counterfeit detection rate: " ++
          formatPercent1 counterfeit_verifications total_verifications])
    else (false, [])
  { suspicious_pattern := freq.1 || rate.1, reasons := freq.2 ++ rate.2 }

/-- `_validate_manufacturer`: first user with the product's
`manufacturer_id`; inactive or missing fails, merely-unverified passes with a
cautionary reason. -/
def _validate_manufacturer (env : Env) (product : Product) : ManufacturerValidation :=
  match env.users.find? (fun u => u.id == product.manufacturer_id) with
  | none =>
    { is_valid := false, reasons := ["Manufacturer not found in database"] }
  | some manufacturer =>
    if !manufacturer.is_active then
      { is_valid := false, reasons := ["Manufacturer account is inactive"] }
    else if !manufacturer.is_verified then
      { is_valid := true, reasons := ["Manufacturer account is not verified"] }
    else
      { is_valid := true, reasons := ["Manufacturer account is valid and verified"] }

/-- `_check_data_consistency`: required fields non-empty; manufacturing date
neither in the future (inconsistent) nor older than ten years (advisory
reason only). -/
def _check_data_consistency (env : Env) (product : Product) : ConsistencyCheck :=
  let fieldsOk := !(product.product_name == "" || product.batch_number == "")
  let fieldReasons :=
    if fieldsOk then ["Product information is complete"]
    else ["Missing required product information"]
  match product.manufacturing_date with
  | none => { is_consistent := fieldsOk, reasons := fieldReasons }
  | some d =>
    if env.now < d then
      { is_consistent := false
        reasons := fieldReasons ++ ["Manufacturing date is in the future"] }
    else if d < env.now - 3650 then
      { is_consistent := fieldsOk
        reasons := fieldReasons ++ ["Product is very old - verify authenticity"] }
    else
      { is_consistent := fieldsOk
        reasons := fieldReasons ++ ["Manufacturing date is reasonable"] }

/-- The penalty table of `_calculate_confidence_score`, with the 0.1 default
for unlisted factors. -/
def penaltyFor (factor : String) : ℚ :=
  if factor == "qr_invalid" then 4/10
  else if factor == "swarm_invalid" then 3/10
  else if factor == "blockchain_invalid" then 2/10
  else if factor == "duplicate_detected" then 5/10
  else if factor == "suspicious_pattern" then 3/10
  else if factor == "manufacturer_invalid" then 2/10
  else if factor == "data_inconsistent" then 2/10
  else if factor == "detection_error" then 5/10
  else 1/10

/-- A reason counted by the warning scan of `_calculate_confidence_score`:
its lower-casing contains one of `warning`, `limited`, `old`, `high`. -/
def isWarningReason (r : String) : Bool :=
  strContains (strLower r) "warning" || strContains (strLower r) "limited" ||
  strContains (strLower r) "old" || strContains (strLower r) "high"

/-- Python's `round(x, 2)` on the reachable scores (all multiples of 1/20,
on which the two-decimal value is exact and every rounding mode agrees):
round half up, `⌊100·q + 1/2⌋ / 100`, written with the executable
`Rat.floor`. -/
def round2 (q : ℚ) : ℚ := ((q * 100 + 1/2).floor : ℤ) / 100

/-- `_calculate_confidence_score`: hard zero when not authentic, otherwise
0.9 minus the risk-factor penalties minus 0.05 per warning reason, floored at
0 and rounded to two decimals. -/
def _calculate_confidence_score (is_authentic : Bool) (risk_factors : List String)
    (detection_reasons : List String) : ℚ :=
  if !is_authentic then 0
  else
    let base_score : ℚ := 9/10
    let total_penalty := (risk_factors.map penaltyFor).sum
    let warning_count := (detection_reasons.filter isWarningReason).length
    let warning_penalty := (warning_count : ℚ) * (5/100)
    round2 (max 0 (base_score - total_penalty - warning_penalty))

/-- `_calculate_risk_level`: bucketing of the confidence score. -/
def _calculate_risk_level (risk_factors : List String) (confidence_score : ℚ) : String :=
  if confidence_score < 3/10 then "high"
  else if confidence_score < 7/10 then "medium"
  else "low"

/-- The dict returned by `detect_counterfeit`. -/
structure DetectionResult where
  is_authentic : Bool
  detection_reasons : List String
  confidence_score : ℚ
  risk_level : String
  risk_factors : List String
  validation_summary : List (String × Bool)
deriving DecidableEq

/-- `CounterfeitDetectionService.detect_counterfeit`: the seven checks in
order, the hard-gate policy (checks 1, 2 and 4 flip `is_authentic`; checks
3, 5, 6, 7 only append risk factors), the scorer, and the outer exception
handler returning the fail-closed verdict. -/
def detect_counterfeit (env : Env) (product : Product)
    (provided_qr_hash : Option String) : DetectionResult :=
  match env.exc with
  | some e =>
    { is_authentic := false
      detection_reasons := ["Detection error: " ++ e]
      confidence_score := 0
      risk_level := "high"
      risk_factors := ["detection_error"]
      validation_summary := [] }
  | none =>
    let qr_validation := _validate_qr_code env product provided_qr_hash
    let ipfs_validation := _validate_ipfs_data env product
    let blockchain_validation := _validate_blockchain_data product
    let duplicate_check := _check_duplicates env product
    let pattern_analysis := _analyze_verification_patterns env product
    let manufacturer_validation := _validate_manufacturer env product
    let consistency_check := _check_data_consistency env product
    let is_authentic :=
      qr_validation.is_valid && ipfs_validation.is_valid && !duplicate_check.has_duplicates
    let risk_factors :=
      (if !qr_validation.is_valid then ["qr_invalid"] else []) ++
      (if !ipfs_validation.is_valid then ["ipfs_invalid"] else []) ++
      (if !blockchain_validation.is_valid then ["blockchain_invalid"] else []) ++
      (if duplicate_check.has_duplicates then ["duplicate_detected"] else []) ++
      (if pattern_analysis.suspicious_pattern then ["suspicious_pattern"] else []) ++
      (if !manufacturer_validation.is_valid then ["manufacturer_invalid"] else []) ++
      (if !consistency_check.is_consistent then ["data_inconsistent"] else [])
    let detection_reasons :=
      qr_validation.reasons ++ ipfs_validation.reasons ++
      blockchain_validation.reasons ++ duplicate_check.reasons ++
      pattern_analysis.reasons ++ manufacturer_validation.reasons ++
      consistency_check.reasons
    let confidence_score :=
      _calculate_confidence_score is_authentic risk_factors detection_reasons
    let risk_level := _calculate_risk_level risk_factors confidence_score
    { is_authentic := is_authentic
      detection_reasons := detection_reasons
      confidence_score := confidence_score
      risk_level := risk_level
      risk_factors := risk_factors
      validation_summary :=
        [("qr_valid", qr_validation.is_valid),
         ("blockchain_valid", blockchain_validation.is_valid),
         ("no_duplicates", !duplicate_check.has_duplicates),
         ("normal_pattern", !pattern_analysis.suspicious_pattern),
         ("manufacturer_valid", manufacturer_validation.is_valid),
         ("data_consistent", consistency_check.is_consistent)] }

/-- The aggregation step of `detect_counterfeit` over already-computed check
results: definitionally the body of the non-exceptional path, factored out so
that scenario proofs can substitute each validator's value. -/
def aggregate (qr_validation : QrValidation) (ipfs_validation : IpfsValidation)
    (blockchain_validation : BlockchainValidation) (duplicate_check : DuplicateCheck)
    (pattern_analysis : PatternAnalysis) (manufacturer_validation : ManufacturerValidation)
    (consistency_check : ConsistencyCheck) : DetectionResult :=
  let is_authentic :=
    qr_validation.is_valid && ipfs_validation.is_valid && !duplicate_check.has_duplicates
  let risk_factors :=
    (if !qr_validation.is_valid then ["qr_invalid"] else []) ++
    (if !ipfs_validation.is_valid then ["ipfs_invalid"] else []) ++
    (if !blockchain_validation.is_valid then ["blockchain_invalid"] else []) ++
    (if duplicate_check.has_duplicates then ["duplicate_detected"] else []) ++
    (if pattern_analysis.suspicious_pattern then ["suspicious_pattern"] else []) ++
    (if !manufacturer_validation.is_valid then ["manufacturer_invalid"] else []) ++
    (if !consistency_check.is_consistent then ["data_inconsistent"] else [])
  let detection_reasons :=
    qr_validation.reasons ++ ipfs_validation.reasons ++
    blockchain_validation.reasons ++ duplicate_check.reasons ++
    pattern_analysis.reasons ++ manufacturer_validation.reasons ++
    consistency_check.reasons
  let confidence_score :=
    _calculate_confidence_score is_authentic risk_factors detection_reasons
  let risk_level := _calculate_risk_level risk_factors confidence_score
  { is_authentic := is_authentic
    detection_reasons := detection_reasons
    confidence_score := confidence_score
    risk_level := risk_level
    risk_factors := risk_factors
    validation_summary :=
      [("qr_valid", qr_validation.is_valid),
       ("blockchain_valid", blockchain_validation.is_valid),
       ("no_duplicates", !duplicate_check.has_duplicates),
       ("normal_pattern", !pattern_analysis.suspicious_pattern),
       ("manufacturer_valid", manufacturer_validation.is_valid),
       ("data_consistent", consistency_check.is_consistent)] }

/-- Outcome of the downstream `blockchain_service.verify_product` call:
skipped (no wallet address or no `blockchain_id`), raised, or returned with
`success` and `verification_result` flags. -/
inductive BlockchainCall where
  | skipped
  | raised (msg : String)
  | returned (success : Bool) (verification_result : Bool)
deriving DecidableEq

/-- The post-detection blockchain adjustment in `create_verification`
(`verifications.py`): on a successful call reporting non-authentic the local
verdict is flipped to `false` with a reason appended; an exception only
appends a reason; nothing else changes the verdict. -/
def apply_blockchain_create (detection : DetectionResult)
    (call : BlockchainCall) : DetectionResult :=
  match call with
  | .skipped => detection
  | .raised _ =>
    { detection with detection_reasons :=
        detection.detection_reasons ++ ["Blockchain verification error"] }
  | .returned success verification_result =>
    if success && !verification_result then
      { detection with
        is_authentic := false
        detection_reasons := detection.detection_reasons ++
          ["Blockchain verification failed - product marked as counterfeit"] }
    else detection

/-- The post-detection blockchain adjustment in
`analyze_counterfeit_detection` (`verifications.py`): an unsuccessful call
appends a reason; a successful call reporting non-authentic flips the verdict
to `false`; an exception appends a reason. -/
def apply_blockchain_analyze (detection : DetectionResult)
    (call : BlockchainCall) : DetectionResult :=
  match call with
  | .skipped => detection
  | .raised _ =>
    { detection with detection_reasons :=
        detection.detection_reasons ++ ["Blockchain verification error"] }
  | .returned success verification_result =>
    if !success then
      { detection with detection_reasons :=
          detection.detection_reasons ++ ["Blockchain verification failed"] }
    else if !verification_result then
      { detection with
        is_authentic := false
        detection_reasons := detection.detection_reasons ++
          ["Blockchain marked product as counterfeit"] }
    else detection

/-! ### Concrete sample data, used by witnesses and counterexamples -/

/-- A well-formed 64-character hexadecimal hash. -/
def sampleHash : String := String.mk (List.replicate 64 'a')

/-- A 64-character string made of `'z'`, i.e. not hexadecimal. -/
def zHash : String := String.mk (List.replicate 64 'z')

/-- A trusted (active and verified) manufacturer account. -/
def verifiedUser : User := { id := 10, is_active := true, is_verified := true }

/-- An active but unverified manufacturer account. -/
def unverifiedUser : User := { id := 10, is_active := true, is_verified := false }

/-- A fresh, fully well-formed product (Scenario A shape). -/
def sampleProduct : Product :=
  { id := 1, blockchain_id := some 5, product_name := "Widget",
    product_description := "a widget", manufacturing_date := some 100,
    batch_number := "B001", qr_code_hash := some sampleHash, ipfs_hash := none,
    swarm_hash := none, manufacturer_id := 10, is_active := true }

/-- Environment holding only `sampleProduct` and its trusted manufacturer. -/
def sampleEnv : Env :=
  { products := [sampleProduct], users := [verifiedUser], verifications := [],
    now := 200, ipfs := fun _ => .failure none, exc := none }

/-- `sampleProduct` with a 64-character non-hexadecimal stored hash. -/
def zProduct : Product := { sampleProduct with qr_code_hash := some zHash }

/-- Environment holding only `zProduct`. -/
def zEnv : Env := { sampleEnv with products := [zProduct] }

/-- An inactive product sharing `sampleProduct`'s stored hash. -/
def inactiveTwin : Product := { sampleProduct with id := 2, is_active := false }

/-- Environment where the only other holder of the hash is inactive. -/
def twinEnv : Env := { sampleEnv with products := [sampleProduct, inactiveTwin] }

/-- Scenario C product: not registered on the ledger. -/
def noLedgerProduct : Product := { sampleProduct with blockchain_id := none }

/-- Scenario C environment: unverified manufacturer, ledger-absent product. -/
def noLedgerEnv : Env :=
  { sampleEnv with products := [noLedgerProduct], users := [unverifiedUser] }

/-- Environment in which the detection pipeline raises an exception. -/
def excEnv : Env := { sampleEnv with exc := some "db down" }

/-- A detection verdict used to exercise the blockchain adjustment. -/
def sampleVerdict : DetectionResult :=
  { is_authentic := true, detection_reasons := ["ok"], confidence_score := 9/10,
    risk_level := "low", risk_factors := [], validation_summary := [] }

/-- `sampleProduct` with a stored hash that is too short. -/
def shortProduct : Product := { sampleProduct with qr_code_hash := some "abc" }

/-- `sampleProduct` with a manufacturing date more than ten years before
`sampleEnv.now`. -/
def oldProduct : Product := { sampleProduct with manufacturing_date := some (-3500) }

/-- The reasons `detect_counterfeit` emits in Scenario A (all checks clean,
no content-store hash, matching provided hash, empty history). -/
def scenarioAReasons : List String :=
  ["QR code hash format is valid", "QR code hash matches stored value",
   "QR code is unique - no duplicates found",
   "No IPFS data available - limited verification",
   "Product registered on blockchain",
   "No duplicate products found with same batch number",
   "Normal verification pattern: 0 in 30 days",
   "Manufacturer account is valid and verified",
   "Product information is complete", "Manufacturing date is reasonable"]

/-- The reasons in Scenario C (Scenario A with no ledger registration and an
unverified manufacturer). -/
def scenarioCReasons : List String :=
  ["QR code hash format is valid", "QR code hash matches stored value",
   "QR code is unique - no duplicates found",
   "No IPFS data available - limited verification",
   "Product not registered on blockchain",
   "No duplicate products found with same batch number",
   "Normal verification pattern: 0 in 30 days",
   "Manufacturer account is not verified",
   "Product information is complete", "Manufacturing date is reasonable"]

/-- The Scenario A reasons with the date advisory for a >10-year-old
product. -/
def oldDateReasons : List String :=
  ["QR code hash format is valid", "QR code hash matches stored value",
   "QR code is unique - no duplicates found",
   "No IPFS data available - limited verification",
   "Product registered on blockchain",
   "No duplicate products found with same batch number",
   "Normal verification pattern: 0 in 30 days",
   "Manufacturer account is valid and verified",
   "Product information is complete",
   "Product is very old - verify authenticity"]

/-- Modelled from the spec: the hexadecimal-digit criterion of §3/§4.1
("exactly 64 lowercase hex characters").  The source's format check
(`len(product.qr_code_hash) != 64`) has no such character test; this
predicate exists only to state the spec's claim. -/
def isHexChar (c : Char) : Bool :=
  c.isDigit || ('a' ≤ c && c ≤ 'f') || ('A' ≤ c && c ≤ 'F')

/-- Modelled from the spec: a string all of whose characters are hex digits. -/
def isHexString (s : String) : Bool := s.toList.all isHexChar

/-! ### Helper lemmas -/

/-- On the non-exceptional path the verdict is the conjunction of the three
hard gates. -/
theorem detect_is_authentic_spec (env : Env) (p : Product) (qh : Option String)
    (hexc : env.exc = none) :
    (detect_counterfeit env p qh).is_authentic =
      ((_validate_qr_code env p qh).is_valid &&
        (_validate_ipfs_data env p).is_valid &&
        !(_check_duplicates env p).has_duplicates) := by
  unfold detect_counterfeit
  rw [hexc]

/-- On the non-exceptional path the risk-factor list is the concatenation of
the per-check tags. -/
theorem detect_risk_factors_spec (env : Env) (p : Product) (qh : Option String)
    (hexc : env.exc = none) :
    (detect_counterfeit env p qh).risk_factors =
      (if !(_validate_qr_code env p qh).is_valid then ["qr_invalid"] else []) ++
      (if !(_validate_ipfs_data env p).is_valid then ["ipfs_invalid"] else []) ++
      (if !(_validate_blockchain_data p).is_valid then ["blockchain_invalid"] else []) ++
      (if (_check_duplicates env p).has_duplicates then ["duplicate_detected"] else []) ++
      (if (_analyze_verification_patterns env p).suspicious_pattern then
        ["suspicious_pattern"] else []) ++
      (if !(_validate_manufacturer env p).is_valid then ["manufacturer_invalid"] else []) ++
      (if !(_check_data_consistency env p).is_consistent then ["data_inconsistent"] else []) := by
  unfold detect_counterfeit
  rw [hexc]

/-- On the non-exceptional path the reasons are the validators' reasons in
declaration order. -/
theorem detect_reasons_spec (env : Env) (p : Product) (qh : Option String)
    (hexc : env.exc = none) :
    (detect_counterfeit env p qh).detection_reasons =
      (_validate_qr_code env p qh).reasons ++ (_validate_ipfs_data env p).reasons ++
      (_validate_blockchain_data p).reasons ++ (_check_duplicates env p).reasons ++
      (_analyze_verification_patterns env p).reasons ++
      (_validate_manufacturer env p).reasons ++
      (_check_data_consistency env p).reasons := by
  unfold detect_counterfeit
  rw [hexc]

/-- On the non-exceptional path the score is the scorer applied to the
returned verdict, factors and reasons. -/
theorem detect_score_spec (env : Env) (p : Product) (qh : Option String)
    (hexc : env.exc = none) :
    (detect_counterfeit env p qh).confidence_score =
      _calculate_confidence_score (detect_counterfeit env p qh).is_authentic
        (detect_counterfeit env p qh).risk_factors
        (detect_counterfeit env p qh).detection_reasons := by
  unfold detect_counterfeit
  rw [hexc]

/-- On the non-exceptional path the risk level is the bucketing of the
returned score. -/
theorem detect_risk_level_spec (env : Env) (p : Product) (qh : Option String)
    (hexc : env.exc = none) :
    (detect_counterfeit env p qh).risk_level =
      _calculate_risk_level (detect_counterfeit env p qh).risk_factors
        (detect_counterfeit env p qh).confidence_score := by
  unfold detect_counterfeit
  rw [hexc]

/-- Every entry of the penalty table, the default included, is nonnegative. -/
theorem penaltyFor_nonneg (factor : String) : 0 ≤ penaltyFor factor := by
  unfold penaltyFor
  split_ifs <;> norm_num

/-- The executable `Rat.floor` agrees with the order-theoretic `⌊·⌋`. -/
theorem floor_bridge (q : ℚ) : q.floor = ⌊q⌋ := by
  rw [Rat.floor_def', Rat.floor_def]

/-- `round2` keeps a value of `[0, 9/10]` inside `[0, 1]`. -/
theorem round2_mem_unit {q : ℚ} (h0 : 0 ≤ q) (h1 : q ≤ 9/10) :
    0 ≤ round2 q ∧ round2 q ≤ 1 := by
  unfold round2
  rw [floor_bridge]
  have hlow : (0 : ℤ) ≤ ⌊q * 100 + 1/2⌋ := by
    rw [Int.le_floor]
    push_cast
    linarith
  have hhigh : ⌊q * 100 + 1/2⌋ ≤ 90 := by
    have hlt : ⌊q * 100 + 1/2⌋ < 91 := by
      rw [Int.floor_lt]
      push_cast
      linarith
    omega
  constructor
  · apply div_nonneg _ (by norm_num)
    exact_mod_cast hlow
  · rw [div_le_one (by norm_num)]
    have hc : ((⌊q * 100 + 1/2⌋ : ℤ) : ℚ) ≤ (90 : ℚ) := by exact_mod_cast hhigh
    linarith

/-- Bounds of the scorer, for any verdict, factors and reasons. -/
theorem calculate_confidence_score_bounds (is_authentic : Bool)
    (risk_factors detection_reasons : List String) :
    0 ≤ _calculate_confidence_score is_authentic risk_factors detection_reasons ∧
      _calculate_confidence_score is_authentic risk_factors detection_reasons ≤ 1 := by
  unfold _calculate_confidence_score
  cases is_authentic with
  | false => norm_num
  | true =>
    simp only [Bool.not_true, Bool.false_eq_true, if_false]
    apply round2_mem_unit
    · exact le_max_left _ _
    · apply max_le (by norm_num)
      have hpen : 0 ≤ (risk_factors.map penaltyFor).sum := by
        apply List.sum_nonneg
        intro x hx
        obtain ⟨f, _, rfl⟩ := List.mem_map.mp hx
        exact penaltyFor_nonneg f
      have hwarn : 0 ≤ ((detection_reasons.filter isWarningReason).length : ℚ) * (5/100) := by
        positivity
      linarith

/-- The scorer returns exactly zero on a negative verdict. -/
theorem calculate_confidence_score_of_false (risk_factors detection_reasons : List String) :
    _calculate_confidence_score false risk_factors detection_reasons = 0 := by
  simp [_calculate_confidence_score]

/-- A missing stored hash or one of the wrong length makes `_validate_qr_code`
return immediately with the single format reason. -/
theorem validate_qr_invalid_format (env : Env) (p : Product) (qh : Option String)
    (hfmt : truthyStr p.qr_code_hash = false ∨ (p.qr_code_hash.getD "").length ≠ 64) :
    _validate_qr_code env p qh =
      { is_valid := false
        reasons := ["Invalid QR code hash format - possible counterfeit"] } := by
  unfold _validate_qr_code
  have hcond : (!truthyStr p.qr_code_hash ||
      ((p.qr_code_hash.getD "").length != 64)) = true := by
    rcases hfmt with h | h
    · simp [h]
    · simp [h]
  rw [if_pos hcond]

/-- A positive filter length is an existential over the list. -/
theorem filter_length_pos_iff {α : Type} (l : List α) (pred : α → Bool) :
    0 < (l.filter pred).length ↔ ∃ a ∈ l, pred a = true := by
  rw [List.length_pos, Ne, List.filter_eq_nil_iff]
  push_neg
  simp

/-- On the non-exceptional path `detect_counterfeit` is the aggregation of
the seven check results. -/
theorem detect_counterfeit_eq_aggregate (env : Env) (p : Product) (qh : Option String)
    (hexc : env.exc = none) :
    detect_counterfeit env p qh =
      aggregate (_validate_qr_code env p qh) (_validate_ipfs_data env p)
        (_validate_blockchain_data p) (_check_duplicates env p)
        (_analyze_verification_patterns env p) (_validate_manufacturer env p)
        (_check_data_consistency env p) := by
  unfold detect_counterfeit aggregate
  rw [hexc]

/-- Value of `_validate_qr_code` on a well-formed, matching, unique hash. -/
theorem validate_qr_clean (env : Env) (p : Product) (qh : Option String) (h : String)
    (hq : p.qr_code_hash = some h) (hne : h ≠ "") (hlen : h.length = 64)
    (hqh : qh = some h)
    (hfil : env.products.filter (fun q =>
      q.qr_code_hash == p.qr_code_hash && q.id != p.id) = []) :
    _validate_qr_code env p qh =
      { is_valid := true
        reasons := ["QR code hash format is valid", "QR code hash matches stored value",
          "QR code is unique - no duplicates found"] } := by
  subst hqh
  have h1 : truthyStr p.qr_code_hash = true := by
    rw [hq]
    simp [truthyStr, hne]
  have h2 : (p.qr_code_hash.getD "").length = 64 := by
    rw [hq]
    exact hlen
  rw [hq] at hfil
  unfold _validate_qr_code
  rw [if_neg (by simp [h1, h2])]
  simp [truthyStr, hne, hq, hfil]

/-- Value of `_validate_ipfs_data` when no IPFS hash is stored. -/
theorem validate_ipfs_absent (env : Env) (p : Product)
    (h : truthyStr p.ipfs_hash = false) :
    _validate_ipfs_data env p =
      { is_valid := true, reasons := ["No IPFS data available - limited verification"] } := by
  unfold _validate_ipfs_data
  rw [if_pos (by simp [h])]

/-- Value of `_validate_ipfs_data` on a present hash whose snapshot matches. -/
theorem validate_ipfs_verified (env : Env) (p : Product) (ih : String)
    (hih : p.ipfs_hash = some ih) (hne : ih ≠ "")
    (hres : env.ipfs ih = .success (some p.product_name) (some p.batch_number)) :
    _validate_ipfs_data env p =
      { is_valid := true, reasons := ["IPFS data integrity verified"] } := by
  have h1 : truthyStr p.ipfs_hash = true := by
    rw [hih]
    simp [truthyStr, hne]
  unfold _validate_ipfs_data
  rw [if_neg (by simp [h1]), hih]
  simp only [Option.getD_some, hres]
  simp

/-- Value of `_validate_blockchain_data` on a registered product. -/
theorem validate_blockchain_present (p : Product)
    (h : truthyInt p.blockchain_id = true) :
    _validate_blockchain_data p =
      { is_valid := true, reasons := ["Product registered on blockchain"] } := by
  unfold _validate_blockchain_data
  rw [if_neg (by simp [h])]

/-- Value of `_validate_blockchain_data` on an unregistered product. -/
theorem validate_blockchain_absent (p : Product)
    (h : truthyInt p.blockchain_id = false) :
    _validate_blockchain_data p =
      { is_valid := false, reasons := ["Product not registered on blockchain"] } := by
  unfold _validate_blockchain_data
  rw [if_pos (by simp [h])]

/-- Value of `_check_duplicates` when no other active product shares batch
and manufacturer. -/
theorem check_duplicates_none (env : Env) (p : Product)
    (hfil : env.products.filter (fun q =>
      q.batch_number == p.batch_number &&
      q.manufacturer_id == p.manufacturer_id &&
      q.id != p.id && q.is_active) = []) :
    _check_duplicates env p =
      { has_duplicates := false
        reasons := ["No duplicate products found with same batch number"] } := by
  unfold _check_duplicates
  simp [hfil]

/-- Value of `_analyze_verification_patterns` with an empty history. -/
theorem patterns_empty (env : Env) (p : Product) (hv : env.verifications = []) :
    _analyze_verification_patterns env p =
      { suspicious_pattern := false
        reasons := ["Normal verification pattern: 0 in 30 days"] } := by
  unfold _analyze_verification_patterns
  rw [hv]
  norm_num
  rfl

/-- Value of `_validate_manufacturer` on a trusted (active, verified)
account. -/
theorem manufacturer_verified (env : Env) (p : Product) (m : User)
    (hfind : env.users.find? (fun u => u.id == p.manufacturer_id) = some m)
    (hma : m.is_active = true) (hmv : m.is_verified = true) :
    _validate_manufacturer env p =
      { is_valid := true, reasons := ["Manufacturer account is valid and verified"] } := by
  unfold _validate_manufacturer
  rw [hfind]
  simp [hma, hmv]

/-- Value of `_validate_manufacturer` on an active but unverified account:
it passes, with only a cautionary reason. -/
theorem manufacturer_unverified (env : Env) (p : Product) (m : User)
    (hfind : env.users.find? (fun u => u.id == p.manufacturer_id) = some m)
    (hma : m.is_active = true) (hmv : m.is_verified = false) :
    _validate_manufacturer env p =
      { is_valid := true, reasons := ["Manufacturer account is not verified"] } := by
  unfold _validate_manufacturer
  rw [hfind]
  simp [hma, hmv]

/-- Value of `_check_data_consistency` on complete fields and a reasonable
date. -/
theorem consistency_ok (env : Env) (p : Product) (d : Int)
    (hn : p.product_name ≠ "") (hb : p.batch_number ≠ "")
    (hd : p.manufacturing_date = some d) (hd1 : d ≤ env.now)
    (hd2 : env.now - 3650 ≤ d) :
    _check_data_consistency env p =
      { is_consistent := true
        reasons := ["Product information is complete", "Manufacturing date is reasonable"] } := by
  unfold _check_data_consistency
  rw [hd]
  simp [hn, hb, not_lt.mpr hd1, not_lt.mpr hd2]

/-- Value of `_check_data_consistency` on complete fields and a
more-than-ten-years-old date: still consistent, with the advisory reason. -/
theorem consistency_old (env : Env) (p : Product) (d : Int)
    (hn : p.product_name ≠ "") (hb : p.batch_number ≠ "")
    (hd : p.manufacturing_date = some d) (hold : d < env.now - 3650) :
    _check_data_consistency env p =
      { is_consistent := true
        reasons := ["Product information is complete",
          "Product is very old - verify authenticity"] } := by
  unfold _check_data_consistency
  rw [hd]
  have hnf : ¬(env.now < d) := by omega
  simp [hn, hb, hnf, hold]

/-- Evaluation of the scorer on a positive verdict with computed penalty sum
and warning count, given the floor bracketing of the resulting score. -/
theorem calc_score_concrete (rf rs : List String) (pen wc : ℚ) (z : ℤ)
    (hpen : (rf.map penaltyFor).sum = pen)
    (hwc : (((rs.filter isWarningReason).length : ℕ) : ℚ) = wc)
    (h0 : 0 ≤ 9/10 - pen - wc * (5/100))
    (hlo : (z : ℚ) ≤ (9/10 - pen - wc * (5/100)) * 100 + 1/2)
    (hhi : (9/10 - pen - wc * (5/100)) * 100 + 1/2 < (z : ℚ) + 1) :
    _calculate_confidence_score true rf rs = (z : ℚ)/100 := by
  unfold _calculate_confidence_score round2
  rw [if_neg (by simp)]
  simp only [hpen, hwc]
  rw [max_eq_right h0, floor_bridge]
  rw [show ⌊(9/10 - pen - wc * (5/100)) * 100 + 1/2⌋ = z from
    Int.floor_eq_iff.mpr ⟨hlo, hhi⟩]

/-- Warning count of the Scenario A reasons (only the content-store
"limited verification" reason matches). -/
theorem warning_count_scenario_a :
    (scenarioAReasons.filter isWarningReason).length = 1 := rfl

/-- Warning count of the Scenario C reasons. -/
theorem warning_count_scenario_c :
    (scenarioCReasons.filter isWarningReason).length = 1 := rfl

/-- Warning count of the old-date reasons ("limited" and "old" both match). -/
theorem warning_count_old_date :
    (oldDateReasons.filter isWarningReason).length = 2 := rfl

/-- Scenario A score: 0.9 − 0.05 = 0.85. -/
theorem score_scenario_a :
    _calculate_confidence_score true [] scenarioAReasons = 17/20 := by
  have h := calc_score_concrete [] scenarioAReasons 0 1 85 (by simp)
    (by rw [warning_count_scenario_a]; norm_num) (by norm_num) (by norm_num)
    (by norm_num)
  rw [h]
  norm_num

/-- Scenario C score: 0.9 − 0.2 − 0.05 = 0.65. -/
theorem score_scenario_c :
    _calculate_confidence_score true ["blockchain_invalid"] scenarioCReasons = 13/20 := by
  have h := calc_score_concrete ["blockchain_invalid"] scenarioCReasons (2/10) 1 65
    (by simp [show penaltyFor "blockchain_invalid" = (2:ℚ)/10 from rfl])
    (by rw [warning_count_scenario_c]; norm_num) (by norm_num) (by norm_num)
    (by norm_num)
  rw [h]
  norm_num

/-- Old-date score: 0.9 − 2·0.05 = 0.80. -/
theorem score_old_date :
    _calculate_confidence_score true [] oldDateReasons = 4/5 := by
  have h := calc_score_concrete [] oldDateReasons 0 2 80 (by simp)
    (by rw [warning_count_old_date]; norm_num) (by norm_num) (by norm_num)
    (by norm_num)
  rw [h]
  norm_num

/-- Bucketing of 0.85. -/
theorem risk_level_17_20 (rf : List String) :
    _calculate_risk_level rf (17/20) = "low" := by
  unfold _calculate_risk_level
  rw [if_neg (by norm_num), if_neg (by norm_num)]

/-- Bucketing of 0.80. -/
theorem risk_level_4_5 (rf : List String) :
    _calculate_risk_level rf (4/5) = "low" := by
  unfold _calculate_risk_level
  rw [if_neg (by norm_num), if_neg (by norm_num)]

/-- Bucketing of 0.65. -/
theorem risk_level_13_20 (rf : List String) :
    _calculate_risk_level rf (13/20) = "medium" := by
  unfold _calculate_risk_level
  rw [if_neg (by norm_num), if_pos (by norm_num)]

/-! ### Claim theorems -/

/-- C2: for every input the returned confidence score lies in `[0, 1]`, and a
negative verdict forces a score of exactly `0`. -/
theorem confidence_score_range_and_zero (env : Env) (p : Product) (qh : Option String) :
    (0 ≤ (detect_counterfeit env p qh).confidence_score ∧
      (detect_counterfeit env p qh).confidence_score ≤ 1) ∧
    ((detect_counterfeit env p qh).is_authentic = false →
      (detect_counterfeit env p qh).confidence_score = 0) := by
  cases hexc : env.exc with
  | some e =>
    unfold detect_counterfeit
    rw [hexc]
    norm_num
  | none =>
    constructor
    · rw [detect_score_spec env p qh hexc]
      exact calculate_confidence_score_bounds _ _ _
    · intro hfalse
      rw [detect_score_spec env p qh hexc, hfalse]
      exact calculate_confidence_score_of_false _ _

/-- Witness for C2 at a concrete input. -/
theorem confidence_score_range_and_zero_witness :
    (0 ≤ (detect_counterfeit sampleEnv sampleProduct (some sampleHash)).confidence_score ∧
      (detect_counterfeit sampleEnv sampleProduct (some sampleHash)).confidence_score ≤ 1) ∧
    ((detect_counterfeit sampleEnv sampleProduct (some sampleHash)).is_authentic = false →
      (detect_counterfeit sampleEnv sampleProduct (some sampleHash)).confidence_score = 0) :=
  confidence_score_range_and_zero sampleEnv sampleProduct (some sampleHash)

/-- C3: an unexpected exception anywhere inside the pipeline yields the
fail-closed verdict: not authentic, score `0`, risk level `high`, the single
reason `"Detection error: <message>"` and the single risk factor
`detection_error`; the exception is never propagated. -/
theorem detection_error_fail_closed (env : Env) (p : Product) (qh : Option String)
    (msg : String) (hexc : env.exc = some msg) :
    detect_counterfeit env p qh =
      { is_authentic := false
        detection_reasons := ["Detection error: " ++ msg]
        confidence_score := 0
        risk_level := "high"
        risk_factors := ["detection_error"]
        validation_summary := [] } := by
  unfold detect_counterfeit
  rw [hexc]

/-- Witness for C3 at a concrete input. -/
theorem detection_error_fail_closed_witness :
    detect_counterfeit excEnv sampleProduct none =
      { is_authentic := false
        detection_reasons := ["Detection error: " ++ "db down"]
        confidence_score := 0
        risk_level := "high"
        risk_factors := ["detection_error"]
        validation_summary := [] } :=
  detection_error_fail_closed excEnv sampleProduct none "db down" rfl

/-- C1: on the non-exceptional path `is_authentic` is false exactly when the
fingerprint/QR validator, the IPFS validator, or the batch-duplicate check
fails; the ledger, pattern, manufacturer and consistency checks never flip
the verdict and only contribute their risk-factor tags. -/
theorem gate_policy_hard_gates (env : Env) (p : Product) (qh : Option String)
    (hexc : env.exc = none) :
    ((detect_counterfeit env p qh).is_authentic = false ↔
      ((_validate_qr_code env p qh).is_valid = false ∨
       (_validate_ipfs_data env p).is_valid = false ∨
       (_check_duplicates env p).has_duplicates = true)) ∧
    ((_validate_blockchain_data p).is_valid = false →
      "blockchain_invalid" ∈ (detect_counterfeit env p qh).risk_factors) ∧
    ((_analyze_verification_patterns env p).suspicious_pattern = true →
      "suspicious_pattern" ∈ (detect_counterfeit env p qh).risk_factors) ∧
    ((_validate_manufacturer env p).is_valid = false →
      "manufacturer_invalid" ∈ (detect_counterfeit env p qh).risk_factors) ∧
    ((_check_data_consistency env p).is_consistent = false →
      "data_inconsistent" ∈ (detect_counterfeit env p qh).risk_factors) := by
  rw [detect_is_authentic_spec env p qh hexc, detect_risk_factors_spec env p qh hexc]
  refine ⟨?_, ?_, ?_, ?_, ?_⟩
  · cases h1 : (_validate_qr_code env p qh).is_valid <;>
      cases h2 : (_validate_ipfs_data env p).is_valid <;>
      cases h3 : (_check_duplicates env p).has_duplicates <;> simp
  · intro h
    simp [h]
  · intro h
    simp [h]
  · intro h
    simp [h]
  · intro h
    simp [h]

/-- Witness for C1 at a concrete input. -/
theorem gate_policy_hard_gates_witness :
    ((detect_counterfeit sampleEnv sampleProduct none).is_authentic = false ↔
      ((_validate_qr_code sampleEnv sampleProduct none).is_valid = false ∨
       (_validate_ipfs_data sampleEnv sampleProduct).is_valid = false ∨
       (_check_duplicates sampleEnv sampleProduct).has_duplicates = true)) ∧
    ((_validate_blockchain_data sampleProduct).is_valid = false →
      "blockchain_invalid" ∈ (detect_counterfeit sampleEnv sampleProduct none).risk_factors) ∧
    ((_analyze_verification_patterns sampleEnv sampleProduct).suspicious_pattern = true →
      "suspicious_pattern" ∈ (detect_counterfeit sampleEnv sampleProduct none).risk_factors) ∧
    ((_validate_manufacturer sampleEnv sampleProduct).is_valid = false →
      "manufacturer_invalid" ∈ (detect_counterfeit sampleEnv sampleProduct none).risk_factors) ∧
    ((_check_data_consistency sampleEnv sampleProduct).is_consistent = false →
      "data_inconsistent" ∈ (detect_counterfeit sampleEnv sampleProduct none).risk_factors) :=
  gate_policy_hard_gates sampleEnv sampleProduct none rfl

/-- C6: the downstream blockchain adjustment is one-directional in both
endpoints: a post-adjustment positive verdict implies a pre-adjustment
positive verdict, and a successful ledger call reporting counterfeit flips a
positive local verdict to negative with a reason appended. -/
theorem ledger_override_one_directional (d : DetectionResult) (c : BlockchainCall) :
    ((apply_blockchain_create d c).is_authentic = true → d.is_authentic = true) ∧
    ((apply_blockchain_analyze d c).is_authentic = true → d.is_authentic = true) ∧
    (d.is_authentic = true →
      (apply_blockchain_create d (.returned true false)).is_authentic = false ∧
      (apply_blockchain_create d (.returned true false)).detection_reasons =
        d.detection_reasons ++
          ["Blockchain verification failed - product marked as counterfeit"] ∧
      (apply_blockchain_analyze d (.returned true false)).is_authentic = false ∧
      (apply_blockchain_analyze d (.returned true false)).detection_reasons =
        d.detection_reasons ++ ["Blockchain marked product as counterfeit"]) := by
  refine ⟨?_, ?_, ?_⟩
  · cases c with
    | skipped => simp [apply_blockchain_create]
    | raised m => simp [apply_blockchain_create]
    | returned s v => cases s <;> cases v <;> simp [apply_blockchain_create]
  · cases c with
    | skipped => simp [apply_blockchain_analyze]
    | raised m => simp [apply_blockchain_analyze]
    | returned s v => cases s <;> cases v <;> simp [apply_blockchain_analyze]
  · intro h
    refine ⟨?_, ?_, ?_, ?_⟩ <;> simp [apply_blockchain_create, apply_blockchain_analyze]

/-- Witness for C6 at a concrete verdict, with the downgrade hypothesis
discharged. -/
theorem ledger_override_one_directional_witness :
    (apply_blockchain_create sampleVerdict (.returned true false)).is_authentic = false ∧
    (apply_blockchain_create sampleVerdict (.returned true false)).detection_reasons =
      sampleVerdict.detection_reasons ++
        ["Blockchain verification failed - product marked as counterfeit"] ∧
    (apply_blockchain_analyze sampleVerdict (.returned true false)).is_authentic = false ∧
    (apply_blockchain_analyze sampleVerdict (.returned true false)).detection_reasons =
      sampleVerdict.detection_reasons ++ ["Blockchain marked product as counterfeit"] :=
  (ledger_override_one_directional sampleVerdict (.returned true false)).2.2 rfl

/-- C10: when the stored hash is missing or has length other than 64 the
fingerprint validator short-circuits, returning invalid with exactly the one
format reason — no mismatch, match or duplicate message — for every provided
hash. -/
theorem qr_format_short_circuit (env : Env) (p : Product) (qh : Option String)
    (hfmt : truthyStr p.qr_code_hash = false ∨ (p.qr_code_hash.getD "").length ≠ 64) :
    _validate_qr_code env p qh =
      { is_valid := false
        reasons := ["Invalid QR code hash format - possible counterfeit"] } :=
  validate_qr_invalid_format env p qh hfmt

/-- Witness for C10: a 3-character stored hash with a matching provided hash
still yields only the format reason. -/
theorem qr_format_short_circuit_witness :
    ("abc" : String).length ≠ 64 ∧
    _validate_qr_code sampleEnv shortProduct (some "abc") =
      { is_valid := false
        reasons := ["Invalid QR code hash format - possible counterfeit"] } :=
  ⟨by decide, qr_format_short_circuit sampleEnv shortProduct (some "abc")
    (Or.inr (by decide))⟩

/-- Counterexample to C4 as stated: a stored 64-character hash made entirely
of the non-hexadecimal character `z` passes the format check and the whole
detection, because the source checks only the length. -/
theorem hex_format_claim_counterexample :
    (zProduct.qr_code_hash.getD "").length = 64 ∧
    isHexString (zProduct.qr_code_hash.getD "") = false ∧
    (detect_counterfeit zEnv zProduct none).is_authentic = true ∧
    "Invalid QR code hash format - possible counterfeit" ∉
      (detect_counterfeit zEnv zProduct none).detection_reasons := by
  decide

/-- C4 amended: the format gate tests only presence and length 64 — any
missing or wrongly-sized stored hash forces a negative verdict with the
format reason, but hexadecimal content is not checked. -/
theorem qr_format_gate_length_only (env : Env) (p : Product) (qh : Option String)
    (hexc : env.exc = none)
    (hfmt : truthyStr p.qr_code_hash = false ∨ (p.qr_code_hash.getD "").length ≠ 64) :
    (detect_counterfeit env p qh).is_authentic = false ∧
    "Invalid QR code hash format - possible counterfeit" ∈
      (detect_counterfeit env p qh).detection_reasons := by
  have h := validate_qr_invalid_format env p qh hfmt
  constructor
  · rw [detect_is_authentic_spec env p qh hexc, h]
    simp
  · rw [detect_reasons_spec env p qh hexc, h]
    simp

/-- Witness for the amended C4 at a concrete input. -/
theorem qr_format_gate_length_only_witness :
    (detect_counterfeit sampleEnv shortProduct none).is_authentic = false ∧
    "Invalid QR code hash format - possible counterfeit" ∈
      (detect_counterfeit sampleEnv shortProduct none).detection_reasons :=
  qr_format_gate_length_only sampleEnv shortProduct none rfl (Or.inr (by decide))

/-- Counterexample to C5 as stated: a fingerprint shared only with an
INACTIVE product still fails the check (the duplicate query has no
`is_active` filter), and the failure reason reports a count, not the
colliding product's id. -/
theorem duplicate_fingerprint_inactive_counterexample :
    inactiveTwin.is_active = false ∧
    inactiveTwin.qr_code_hash = sampleProduct.qr_code_hash ∧
    inactiveTwin.id ≠ sampleProduct.id ∧
    (∀ q ∈ twinEnv.products, q.id ≠ sampleProduct.id → q.is_active = false) ∧
    (detect_counterfeit twinEnv sampleProduct none).is_authentic = false ∧
    "Duplicate QR code detected on 1 other products - counterfeit" ∈
      (detect_counterfeit twinEnv sampleProduct none).detection_reasons := by
  decide

/-- C5 amended: for a well-formed stored fingerprint (and a provided hash
that is absent or matching), the collision step fails exactly when some
other product — active or not — shares the fingerprint, and the failure
reason reports how many such products exist. -/
theorem duplicate_fingerprint_any_activity (env : Env) (p : Product) (qh : Option String)
    (hq : truthyStr p.qr_code_hash = true)
    (hlen : (p.qr_code_hash.getD "").length = 64)
    (hprov : truthyStr qh = false ∨ qh = p.qr_code_hash) :
    ((_validate_qr_code env p qh).is_valid = false ↔
      ∃ q ∈ env.products, q.id ≠ p.id ∧ q.qr_code_hash = p.qr_code_hash) ∧
    (0 < (env.products.filter (fun q =>
        q.qr_code_hash == p.qr_code_hash && q.id != p.id)).length →
      ("Duplicate QR code detected on " ++
        toString (env.products.filter (fun q =>
          q.qr_code_hash == p.qr_code_hash && q.id != p.id)).length ++
        " other products - counterfeit") ∈ (_validate_qr_code env p qh).reasons) := by
  have hmem : 0 < (env.products.filter (fun q =>
      q.qr_code_hash == p.qr_code_hash && q.id != p.id)).length ↔
      ∃ q ∈ env.products, q.id ≠ p.id ∧ q.qr_code_hash = p.qr_code_hash := by
    rw [filter_length_pos_iff]
    constructor
    · rintro ⟨q, hql, hpred⟩
      simp only [Bool.and_eq_true, beq_iff_eq, bne_iff_ne] at hpred
      exact ⟨q, hql, hpred.2, hpred.1⟩
    · rintro ⟨q, hql, hid, hhash⟩
      refine ⟨q, hql, ?_⟩
      simp [hhash, hid]
  have hfmt : ¬((!truthyStr p.qr_code_hash ||
      ((p.qr_code_hash.getD "").length != 64)) = true) := by
    simp [hq, hlen]
  have hv : _validate_qr_code env p qh =
      (if 0 < (env.products.filter (fun q =>
          q.qr_code_hash == p.qr_code_hash && q.id != p.id)).length then
        { is_valid := false
          reasons := ["QR code hash format is valid"] ++
            (if truthyStr qh then ["QR code hash matches stored value"] else []) ++
            ["Duplicate QR code detected on " ++
              toString (env.products.filter (fun q =>
                q.qr_code_hash == p.qr_code_hash && q.id != p.id)).length ++
              " other products - counterfeit"] }
      else
        { is_valid := true
          reasons := ["QR code hash format is valid"] ++
            (if truthyStr qh then ["QR code hash matches stored value"] else []) ++
            ["QR code is unique - no duplicates found"] }) := by
    unfold _validate_qr_code
    rw [if_neg hfmt]
    rcases hprov with htr | heq
    · simp [htr]
    · subst heq
      simp [hq]
  rcases Nat.eq_zero_or_pos (env.products.filter (fun q =>
      q.qr_code_hash == p.qr_code_hash && q.id != p.id)).length with h0 | hpos
  · rw [hv, if_neg (by omega)]
    constructor
    · refine ⟨fun hco => absurd hco (by simp), fun hex => ?_⟩
      have := hmem.mpr hex
      omega
    · intro hpos'
      omega
  · rw [hv, if_pos hpos]
    refine ⟨⟨fun _ => hmem.mp hpos, fun _ => rfl⟩, fun _ => ?_⟩
    simp

/-- Witness for the amended C5 at a concrete input with an inactive
duplicate. -/
theorem duplicate_fingerprint_any_activity_witness :
    ((_validate_qr_code twinEnv sampleProduct none).is_valid = false ↔
      ∃ q ∈ twinEnv.products, q.id ≠ sampleProduct.id ∧
        q.qr_code_hash = sampleProduct.qr_code_hash) :=
  (duplicate_fingerprint_any_activity twinEnv sampleProduct none (by decide)
    (by decide) (Or.inl (by decide))).1

/-- Counterexample to C7 as stated: in the exact Scenario-A setting the
absent content-store hash emits the "limited verification" reason, which the
scorer counts as a warning (−0.05), so the confidence score is 0.85, not the
claimed 0.9. -/
theorem scenario_a_score_counterexample :
    sampleProduct.ipfs_hash = none ∧
    sampleProduct.qr_code_hash = some sampleHash ∧
    sampleHash.length = 64 ∧
    isHexString sampleHash = true ∧
    truthyInt sampleProduct.blockchain_id = true ∧
    sampleEnv.products = [sampleProduct] ∧
    sampleEnv.verifications = [] ∧
    verifiedUser.is_active = true ∧
    verifiedUser.is_verified = true ∧
    (detect_counterfeit sampleEnv sampleProduct (some sampleHash)).is_authentic = true ∧
    (detect_counterfeit sampleEnv sampleProduct (some sampleHash)).confidence_score = 17/20 ∧
    ¬((detect_counterfeit sampleEnv sampleProduct (some sampleHash)).confidence_score = 9/10) ∧
    (detect_counterfeit sampleEnv sampleProduct (some sampleHash)).risk_level = "low" := by
  refine ⟨rfl, rfl, by decide, by decide, by decide, rfl, rfl, rfl, rfl,
    by decide, ?_, ?_, ?_⟩
  · show _calculate_confidence_score true [] scenarioAReasons = 17/20
    exact score_scenario_a
  · show ¬(_calculate_confidence_score true [] scenarioAReasons = 9/10)
    rw [score_scenario_a]
    norm_num
  · show _calculate_risk_level []
      (_calculate_confidence_score true [] scenarioAReasons) = "low"
    rw [score_scenario_a]
    exact risk_level_17_20 []

/-- C7 amended: in Scenario A (fresh product, unique well-formed matching
fingerprint, ledger-registered, trusted issuer, no content-store hash,
complete fields, reasonable date, zero prior verifications) the verdict is
authentic with risk level low, but the confidence score is 0.85: the absent
content store contributes a warning reason worth 0.05. -/
theorem scenario_a_amended (env : Env) (p : Product) (h : String) (m : User)
    (d : Int) (qh : Option String)
    (hexc : env.exc = none)
    (hq : p.qr_code_hash = some h) (hne : h ≠ "") (hlen : h.length = 64)
    (hqh : qh = some h)
    (hprod : env.products = [p])
    (hipfs : truthyStr p.ipfs_hash = false)
    (hbc : truthyInt p.blockchain_id = true)
    (hver : env.verifications = [])
    (hfind : env.users.find? (fun u => u.id == p.manufacturer_id) = some m)
    (hma : m.is_active = true) (hmv : m.is_verified = true)
    (hn : p.product_name ≠ "") (hb : p.batch_number ≠ "")
    (hd : p.manufacturing_date = some d) (hd1 : d ≤ env.now)
    (hd2 : env.now - 3650 ≤ d) :
    (detect_counterfeit env p qh).is_authentic = true ∧
    (detect_counterfeit env p qh).confidence_score = 17/20 ∧
    (detect_counterfeit env p qh).risk_level = "low" := by
  have hfil1 : env.products.filter (fun q =>
      q.qr_code_hash == p.qr_code_hash && q.id != p.id) = [] := by
    rw [hprod]
    simp
  have hfil2 : env.products.filter (fun q =>
      q.batch_number == p.batch_number &&
      q.manufacturer_id == p.manufacturer_id &&
      q.id != p.id && q.is_active) = [] := by
    rw [hprod]
    simp
  rw [detect_counterfeit_eq_aggregate env p qh hexc,
    validate_qr_clean env p qh h hq hne hlen hqh hfil1,
    validate_ipfs_absent env p hipfs,
    validate_blockchain_present p hbc,
    check_duplicates_none env p hfil2,
    patterns_empty env p hver,
    manufacturer_verified env p m hfind hma hmv,
    consistency_ok env p d hn hb hd hd1 hd2]
  refine ⟨rfl, ?_, ?_⟩
  · show _calculate_confidence_score true [] scenarioAReasons = 17/20
    exact score_scenario_a
  · show _calculate_risk_level []
      (_calculate_confidence_score true [] scenarioAReasons) = "low"
    rw [score_scenario_a]
    exact risk_level_17_20 []

/-- Witness for the amended C7 at a concrete input. -/
theorem scenario_a_amended_witness :
    (detect_counterfeit sampleEnv sampleProduct (some sampleHash)).is_authentic = true ∧
    (detect_counterfeit sampleEnv sampleProduct (some sampleHash)).confidence_score = 17/20 ∧
    (detect_counterfeit sampleEnv sampleProduct (some sampleHash)).risk_level = "low" :=
  scenario_a_amended sampleEnv sampleProduct sampleHash verifiedUser 100
    (some sampleHash) rfl rfl (by decide) (by decide) rfl rfl (by decide)
    (by decide) rfl (by decide) rfl rfl (by decide) (by decide) rfl
    (by decide) (by decide)

/-- Counterexample to C8 as stated: with no ledger registration and an
active-but-unverified issuer (everything else clean, content store absent),
the risk factors are only `blockchain_invalid` — the unverified issuer adds
no manufacturer risk factor — and the confidence score is 0.65, not 0.5. -/
theorem scenario_c_counterexample :
    truthyInt noLedgerProduct.blockchain_id = false ∧
    unverifiedUser.is_active = true ∧
    unverifiedUser.is_verified = false ∧
    (detect_counterfeit noLedgerEnv noLedgerProduct (some sampleHash)).is_authentic = true ∧
    (detect_counterfeit noLedgerEnv noLedgerProduct (some sampleHash)).risk_factors =
      ["blockchain_invalid"] ∧
    "manufacturer_invalid" ∉
      (detect_counterfeit noLedgerEnv noLedgerProduct (some sampleHash)).risk_factors ∧
    (detect_counterfeit noLedgerEnv noLedgerProduct (some sampleHash)).confidence_score = 13/20 ∧
    ¬((detect_counterfeit noLedgerEnv noLedgerProduct (some sampleHash)).confidence_score = 1/2) := by
  refine ⟨rfl, rfl, rfl, by decide, by decide, by decide, ?_, ?_⟩
  · show _calculate_confidence_score true ["blockchain_invalid"] scenarioCReasons = 13/20
    exact score_scenario_c
  · show ¬(_calculate_confidence_score true ["blockchain_invalid"] scenarioCReasons = 1/2)
    rw [score_scenario_c]
    norm_num

/-- C8 amended: in Scenario C (no ledger registration, active but unverified
issuer, all gate checks pass, content store absent) the verdict is authentic
with risk level medium, but the score is 0.65 = 0.9 − 0.2 (ledger risk
factor) − 0.05 (limited-verification warning): the unverified issuer
contributes only a cautionary reason, never a manufacturer risk factor. -/
theorem scenario_c_amended (env : Env) (p : Product) (h : String) (m : User)
    (d : Int) (qh : Option String)
    (hexc : env.exc = none)
    (hq : p.qr_code_hash = some h) (hne : h ≠ "") (hlen : h.length = 64)
    (hqh : qh = some h)
    (hprod : env.products = [p])
    (hipfs : truthyStr p.ipfs_hash = false)
    (hbc : truthyInt p.blockchain_id = false)
    (hver : env.verifications = [])
    (hfind : env.users.find? (fun u => u.id == p.manufacturer_id) = some m)
    (hma : m.is_active = true) (hmv : m.is_verified = false)
    (hn : p.product_name ≠ "") (hb : p.batch_number ≠ "")
    (hd : p.manufacturing_date = some d) (hd1 : d ≤ env.now)
    (hd2 : env.now - 3650 ≤ d) :
    (detect_counterfeit env p qh).is_authentic = true ∧
    (detect_counterfeit env p qh).confidence_score = 13/20 ∧
    (detect_counterfeit env p qh).risk_level = "medium" ∧
    (detect_counterfeit env p qh).risk_factors = ["blockchain_invalid"] := by
  have hfil1 : env.products.filter (fun q =>
      q.qr_code_hash == p.qr_code_hash && q.id != p.id) = [] := by
    rw [hprod]
    simp
  have hfil2 : env.products.filter (fun q =>
      q.batch_number == p.batch_number &&
      q.manufacturer_id == p.manufacturer_id &&
      q.id != p.id && q.is_active) = [] := by
    rw [hprod]
    simp
  rw [detect_counterfeit_eq_aggregate env p qh hexc,
    validate_qr_clean env p qh h hq hne hlen hqh hfil1,
    validate_ipfs_absent env p hipfs,
    validate_blockchain_absent p hbc,
    check_duplicates_none env p hfil2,
    patterns_empty env p hver,
    manufacturer_unverified env p m hfind hma hmv,
    consistency_ok env p d hn hb hd hd1 hd2]
  refine ⟨rfl, ?_, ?_, rfl⟩
  · show _calculate_confidence_score true ["blockchain_invalid"] scenarioCReasons = 13/20
    exact score_scenario_c
  · show _calculate_risk_level ["blockchain_invalid"]
      (_calculate_confidence_score true ["blockchain_invalid"] scenarioCReasons) = "medium"
    rw [score_scenario_c]
    exact risk_level_13_20 ["blockchain_invalid"]

/-- Witness for the amended C8 at a concrete input. -/
theorem scenario_c_amended_witness :
    (detect_counterfeit noLedgerEnv noLedgerProduct (some sampleHash)).is_authentic = true ∧
    (detect_counterfeit noLedgerEnv noLedgerProduct (some sampleHash)).confidence_score = 13/20 ∧
    (detect_counterfeit noLedgerEnv noLedgerProduct (some sampleHash)).risk_level = "medium" ∧
    (detect_counterfeit noLedgerEnv noLedgerProduct (some sampleHash)).risk_factors =
      ["blockchain_invalid"] :=
  scenario_c_amended noLedgerEnv noLedgerProduct sampleHash unverifiedUser 100
    (some sampleHash) rfl rfl (by decide) (by decide) rfl rfl (by decide)
    (by decide) rfl (by decide) rfl rfl (by decide) (by decide) rfl
    (by decide) (by decide)

/-- Counterexample to C9 as stated: two products identical except for the
manufacturing date, both authentic, get different confidence scores — the
very-old-date advisory reason contains the substring "old" and is counted by
the scorer's warning scan. -/
theorem old_date_penalty_counterexample :
    ({ oldProduct with manufacturing_date := sampleProduct.manufacturing_date } =
      sampleProduct) ∧
    oldProduct.manufacturing_date = some (-3500) ∧
    ((-3500 : Int) < sampleEnv.now - 3650) ∧
    (detect_counterfeit sampleEnv oldProduct (some sampleHash)).is_authentic = true ∧
    (detect_counterfeit sampleEnv sampleProduct (some sampleHash)).is_authentic = true ∧
    "Product is very old - verify authenticity" ∈
      (detect_counterfeit sampleEnv oldProduct (some sampleHash)).detection_reasons ∧
    (detect_counterfeit sampleEnv oldProduct (some sampleHash)).confidence_score = 4/5 ∧
    (detect_counterfeit sampleEnv sampleProduct (some sampleHash)).confidence_score = 17/20 ∧
    ¬((detect_counterfeit sampleEnv oldProduct (some sampleHash)).confidence_score =
      (detect_counterfeit sampleEnv sampleProduct (some sampleHash)).confidence_score) := by
  refine ⟨rfl, rfl, by decide, by decide, by decide, by decide, ?_, ?_, ?_⟩
  · show _calculate_confidence_score true [] oldDateReasons = 4/5
    exact score_old_date
  · show _calculate_confidence_score true [] scenarioAReasons = 17/20
    exact score_scenario_a
  · show ¬(_calculate_confidence_score true [] oldDateReasons =
      _calculate_confidence_score true [] scenarioAReasons)
    rw [score_old_date, score_scenario_a]
    norm_num

/-- C9 amended: a manufacturing date more than ten years old yields the
advisory reason "Product is very old - verify authenticity", which the
scorer's warning scan matches (substring "old") and charges 0.05: in the
Scenario-A setting the old-dated product scores 0.80 against 0.85 for an
otherwise identical product with a recent date; both stay authentic. -/
theorem old_date_warning_penalty (env : Env) (p : Product) (h : String) (m : User)
    (dOld dNew : Int) (qh : Option String)
    (hexc : env.exc = none)
    (hq : p.qr_code_hash = some h) (hne : h ≠ "") (hlen : h.length = 64)
    (hqh : qh = some h)
    (hprod : env.products = [p])
    (hipfs : truthyStr p.ipfs_hash = false)
    (hbc : truthyInt p.blockchain_id = true)
    (hver : env.verifications = [])
    (hfind : env.users.find? (fun u => u.id == p.manufacturer_id) = some m)
    (hma : m.is_active = true) (hmv : m.is_verified = true)
    (hn : p.product_name ≠ "") (hb : p.batch_number ≠ "")
    (hdOld : dOld < env.now - 3650)
    (hdN1 : dNew ≤ env.now) (hdN2 : env.now - 3650 ≤ dNew) :
    (detect_counterfeit env { p with manufacturing_date := some dOld } qh).is_authentic
      = true ∧
    (detect_counterfeit env { p with manufacturing_date := some dNew } qh).is_authentic
      = true ∧
    (detect_counterfeit env { p with manufacturing_date := some dOld } qh).confidence_score
      = 4/5 ∧
    (detect_counterfeit env { p with manufacturing_date := some dNew } qh).confidence_score
      = 17/20 ∧
    ¬((detect_counterfeit env { p with manufacturing_date := some dOld } qh).confidence_score =
      (detect_counterfeit env { p with manufacturing_date := some dNew } qh).confidence_score) := by
  have hfil1 : env.products.filter (fun q =>
      q.qr_code_hash == p.qr_code_hash && q.id != p.id) = [] := by
    rw [hprod]
    simp
  have hfil2 : env.products.filter (fun q =>
      q.batch_number == p.batch_number &&
      q.manufacturer_id == p.manufacturer_id &&
      q.id != p.id && q.is_active) = [] := by
    rw [hprod]
    simp
  rw [detect_counterfeit_eq_aggregate env { p with manufacturing_date := some dOld } qh hexc,
    detect_counterfeit_eq_aggregate env { p with manufacturing_date := some dNew } qh hexc,
    validate_qr_clean env { p with manufacturing_date := some dOld } qh h hq hne hlen hqh hfil1,
    validate_qr_clean env { p with manufacturing_date := some dNew } qh h hq hne hlen hqh hfil1,
    validate_ipfs_absent env { p with manufacturing_date := some dOld } hipfs,
    validate_ipfs_absent env { p with manufacturing_date := some dNew } hipfs,
    validate_blockchain_present { p with manufacturing_date := some dOld } hbc,
    validate_blockchain_present { p with manufacturing_date := some dNew } hbc,
    check_duplicates_none env { p with manufacturing_date := some dOld } hfil2,
    check_duplicates_none env { p with manufacturing_date := some dNew } hfil2,
    patterns_empty env { p with manufacturing_date := some dOld } hver,
    patterns_empty env { p with manufacturing_date := some dNew } hver,
    manufacturer_verified env { p with manufacturing_date := some dOld } m hfind hma hmv,
    manufacturer_verified env { p with manufacturing_date := some dNew } m hfind hma hmv,
    consistency_old env { p with manufacturing_date := some dOld } dOld hn hb rfl hdOld,
    consistency_ok env { p with manufacturing_date := some dNew } dNew hn hb rfl hdN1 hdN2]
  refine ⟨rfl, rfl, ?_, ?_, ?_⟩
  · show _calculate_confidence_score true [] oldDateReasons = 4/5
    exact score_old_date
  · show _calculate_confidence_score true [] scenarioAReasons = 17/20
    exact score_scenario_a
  · show ¬(_calculate_confidence_score true [] oldDateReasons =
      _calculate_confidence_score true [] scenarioAReasons)
    rw [score_old_date, score_scenario_a]
    norm_num

/-- Witness for the amended C9 at a concrete input. -/
theorem old_date_warning_penalty_witness :
    (detect_counterfeit sampleEnv
      { sampleProduct with manufacturing_date := some (-3500) }
      (some sampleHash)).is_authentic = true ∧
    (detect_counterfeit sampleEnv
      { sampleProduct with manufacturing_date := some 100 }
      (some sampleHash)).is_authentic = true ∧
    (detect_counterfeit sampleEnv
      { sampleProduct with manufacturing_date := some (-3500) }
      (some sampleHash)).confidence_score = 4/5 ∧
    (detect_counterfeit sampleEnv
      { sampleProduct with manufacturing_date := some 100 }
      (some sampleHash)).confidence_score = 17/20 ∧
    ¬((detect_counterfeit sampleEnv
      { sampleProduct with manufacturing_date := some (-3500) }
      (some sampleHash)).confidence_score =
      (detect_counterfeit sampleEnv
        { sampleProduct with manufacturing_date := some 100 }
        (some sampleHash)).confidence_score) :=
  old_date_warning_penalty sampleEnv sampleProduct sampleHash verifiedUser
    (-3500) 100 (some sampleHash) rfl rfl (by decide) (by decide) rfl rfl
    (by decide) (by decide) rfl (by decide) rfl rfl (by decide) (by decide)
    (by decide) (by decide) (by decide)

end CounterfeitDetection
